import Mathlib

/-!
Shallow embedding of the lookup pipeline of `src/script.js` (a browser
client that fetches a creature record and renders it).  JavaScript
strings are modelled as Lean `String` (ASCII case folding and ASCII
whitespace; the queries and labels involved are ASCII).  JavaScript
numbers that the program uses as integers are modelled as `Nat`; the
two-decimal rendering of `n / 10` produced by `toFixed(2)` is exact for
every `n` below `2 ^ 49`, which covers the integer fields consumed here.
The DOM is modelled as an explicit record of the mutable view state the
script touches.
-/

/-- One character of `s` at index `i` as a string, empty when out of
range, as JavaScript's `str.charAt(i)`. -/
def jsCharAt (s : String) (i : Nat) : String :=
  match s.data.drop i with
  | [] => ""
  | c :: _ => String.singleton c

/-- ASCII model of JavaScript's `str.toUpperCase()`. -/
def jsToUpperCase (s : String) : String :=
  String.mk (s.data.map Char.toUpper)

/-- ASCII model of JavaScript's `str.toLowerCase()`. -/
def jsToLowerCase (s : String) : String :=
  String.mk (s.data.map Char.toLower)

/-- JavaScript's `str.slice(i)`: the suffix from index `i`. -/
def jsSlice (s : String) (i : Nat) : String :=
  String.mk (s.data.drop i)

/-- ASCII whitespace recognised by JavaScript's `str.trim()`. -/
def jsIsSpace (c : Char) : Bool :=
  c = ' ' || c = '\t' || c = '\n' || c = '\r' || c = '\x0b' || c = '\x0c'

/-- Model of JavaScript's `str.trim()`: strip leading and trailing
whitespace. -/
def jsTrim (s : String) : String :=
  String.mk (((s.data.dropWhile jsIsSpace).reverse.dropWhile jsIsSpace).reverse)

/-- Does `p` occur at the start of `l`? (helper for `jsIncludes`). -/
def charsStartWith : List Char → List Char → Bool
  | [], _ => true
  | _ :: _, [] => false
  | c :: cs, d :: ds => c == d && charsStartWith cs ds

/-- Does `needle` occur somewhere inside `hay`? (helper for
`jsIncludes`). -/
def charsHaveSub (needle : List Char) : List Char → Bool
  | [] => charsStartWith needle []
  | d :: ds => charsStartWith needle (d :: ds) || charsHaveSub needle ds

/-- Model of JavaScript's `hay.includes(needle)` on strings. -/
def jsIncludes (hay needle : String) : Bool :=
  charsHaveSub needle.data hay.data

/-- Model of JavaScript's `str.padStart(target, pad)` for a one-character
pad string: left-pad to `target` characters, never truncating. -/
def padStart (s : String) (target : Nat) (pad : Char) : String :=
  if s.length < target then String.mk (List.replicate (target - s.length) pad) ++ s
  else s

/-- `capitalize` of src/script.js lines 44-46:
`str.charAt(0).toUpperCase() + str.slice(1)`. -/
def capitalize (str : String) : String :=
  jsToUpperCase (jsCharAt str 0) ++ jsSlice str 1

/-- Decimal rendering of `n / 10` to two decimal places: the value of
JavaScript's `(n / 10).toFixed(2)` for natural `n < 2 ^ 49`, where the
double-precision division is exact to within far less than the rounding
step of two decimals. -/
def toFixedTwoOfTenths (n : Nat) : String :=
  Nat.repr (n / 10) ++ "." ++ Nat.repr (n % 10) ++ "0"

/-- `convertHeight` of src/script.js lines 53-56:
`(decimeters / 10).toFixed(2)` followed by `" m"`. -/
def convertHeight (decimeters : Nat) : String :=
  toFixedTwoOfTenths decimeters ++ " m"

/-- `convertWeight` of src/script.js lines 63-66:
`(hectograms / 10).toFixed(2)` followed by `" kg"`. -/
def convertWeight (hectograms : Nat) : String :=
  toFixedTwoOfTenths hectograms ++ " kg"

/-- The `typeColors` object literal of src/script.js lines 74-93, as an
association list in source order. -/
def typeColors : List (String × String) :=
  [("normal", "bg-gray-400"),
   ("fire", "bg-red-500"),
   ("water", "bg-blue-500"),
   ("electric", "bg-yellow-400"),
   ("grass", "bg-green-500"),
   ("ice", "bg-blue-200"),
   ("fighting", "bg-red-700"),
   ("poison", "bg-purple-500"),
   ("ground", "bg-yellow-600"),
   ("flying", "bg-indigo-400"),
   ("psychic", "bg-pink-500"),
   ("bug", "bg-green-400"),
   ("rock", "bg-yellow-700"),
   ("ghost", "bg-purple-700"),
   ("dragon", "bg-indigo-700"),
   ("dark", "bg-gray-800"),
   ("steel", "bg-gray-500"),
   ("fairy", "bg-pink-300")]

/-- `getTypeColor` of src/script.js lines 73-95: own-property lookup in
the `typeColors` object, `'bg-gray-400'` when the key is absent
(`typeColors[type] || 'bg-gray-400'`; every stored value is a non-empty
string, so `||` fires exactly on a missing key). -/
def getTypeColor (type : String) : String :=
  (typeColors.lookup type).getD "bg-gray-400"

/-- The `sprites` object of the fetched record: the four image slots
the script reads (src/script.js lines 152-157); `none` models a
null/undefined URL. -/
structure Sprites where
  front_default : Option String
  back_default : Option String
  front_shiny : Option String
  back_shiny : Option String
deriving DecidableEq

/-- The nested `{ name }` object inside one entry of `data.types`. -/
structure TypeRef where
  name : String
deriving DecidableEq

/-- One entry of `data.types`: an object with a `type.name` field
(src/script.js lines 184-188). -/
structure TypeInfo where
  type : TypeRef
deriving DecidableEq

/-- The fields of the parsed response body that the script consumes
(src/script.js lines 143-200). -/
structure PokemonData where
  name : String
  id : Nat
  sprites : Sprites
  height : Nat
  weight : Nat
  base_experience : Nat
  types : List TypeInfo
deriving DecidableEq

/-- The mutable view state the script reads and writes: visibility of
the loading indicator, error box and result card, the search button
state, and the rendered card fields.  `cardImages` and `cardTypes` hold
the children appended to the `#pokemonImages` and `#pokemonTypes`
containers, as (text, extra) pairs described at their building sites. -/
structure UIState where
  loadingVisible : Bool
  errorVisible : Bool
  errorText : String
  cardVisible : Bool
  searchDisabled : Bool
  searchLabel : String
  cardName : String
  cardId : String
  cardImages : List (String × String)
  cardHeight : String
  cardWeight : String
  cardExperience : String
  cardTypes : List (String × String)
deriving DecidableEq

/-- The page as first loaded: nothing shown, search button enabled. -/
def initUI : UIState :=
  ⟨false, false, "", false, false, "Search", "", "", [], "", "", "", []⟩

/-- `showLoading` of src/script.js lines 111-117: hide card and error,
show the loading indicator, disable the search button. -/
def showLoading (s : UIState) : UIState :=
  { s with cardVisible := false, errorVisible := false, loadingVisible := true,
           searchDisabled := true, searchLabel := "Searching..." }

/-- `hideLoading` of src/script.js lines 122-126: hide the loading
indicator, re-enable the search button. -/
def hideLoading (s : UIState) : UIState :=
  { s with loadingVisible := false, searchDisabled := false, searchLabel := "Search" }

/-- `showError` of src/script.js lines 132-137. -/
def showError (message : String) (s : UIState) : UIState :=
  { hideLoading s with cardVisible := false, errorText := message, errorVisible := true }

/-- One step of the `imageUrls.forEach` loop of src/script.js lines
159-177: append an `(url, label)` child when the slot's URL is truthy
(present and non-empty), otherwise leave the container unchanged. -/
def appendIf (acc : List (String × String)) (url : Option String) (label : String) :
    List (String × String) :=
  match url with
  | some u => if u = "" then acc else acc ++ [(u, label)]
  | none => acc

/-- The image children built by src/script.js lines 150-177: the
container is cleared (`innerHTML = ''`) and the four fixed slots are
visited in source order with their literal labels. -/
def buildImages (sp : Sprites) : List (String × String) :=
  appendIf (appendIf (appendIf (appendIf [] sp.front_default "Front")
    sp.back_default "Back") sp.front_shiny "Shiny Front") sp.back_shiny "Shiny Back"

/-- The type badges built by src/script.js lines 183-200: the container
is cleared (`innerHTML = ''`) and `data.types.map` appends one badge per
entry, text `capitalize(typeInfo.type.name)`, color class
`getTypeColor(typeInfo.type.name)`. -/
def buildTypes (ts : List TypeInfo) : List (String × String) :=
  ts.foldl (fun acc ti => acc ++ [(capitalize ti.type.name, getTypeColor ti.type.name)]) []

/-- `displayPokemon` of src/script.js lines 143-203: clear loading and
error state, overwrite every card field from `data`, show the card. -/
def displayPokemon (data : PokemonData) (s : UIState) : UIState :=
  { hideLoading s with
    errorVisible := false,
    cardName := capitalize data.name,
    cardId := "#" ++ padStart (Nat.repr data.id) 3 '0',
    cardImages := buildImages data.sprites,
    cardHeight := convertHeight data.height,
    cardWeight := convertWeight data.weight,
    cardExperience := Nat.repr data.base_experience,
    cardTypes := buildTypes data.types,
    cardVisible := true }

/-- The outcome of `await fetch(url)` together with what
`await response.json()` would yield: either the fetch promise rejected
(a `TypeError` whose message is e.g. "Failed to fetch"), or a response
arrived with an HTTP status and a body that parses to a `PokemonData`
(`Except.ok`) or fails to parse (`Except.error` with the parser's
message). -/
inductive FetchOutcome where
  | failed (msg : String)
  | response (status : Nat) (body : Except String PokemonData)

/-- `Response.ok` of the Fetch API: status in the range 200-299. -/
def respOk (status : Nat) : Bool :=
  200 ≤ status && status ≤ 299

/-- An exception escaping a function.  The only exception the modelled
code lets escape is the `ReferenceError` raised by evaluating an unbound
identifier. -/
inductive JsException where
  | referenceError (ident : String)
deriving DecidableEq

/-- The `try` block of `fetchPokemon`, src/script.js lines 214-227:
await the fetch (a rejection rethrows its message), throw the not-found
message on 404, throw `HTTP Error: <status>` on any other non-ok status,
await the JSON parse (a parse failure rethrows its message), and on
success render via `displayPokemon`.  The result is the thrown message
or the new view state. -/
def tryFetch (o : FetchOutcome) (s : UIState) : Except String UIState :=
  match o with
  | .failed msg => .error msg
  | .response status body =>
    if !(respOk status) then
      if status == 404 then
        .error "Pokémon not found! Please check the name or ID and try again."
      else
        .error ("HTTP Error: " ++ Nat.repr status)
    else
      match body with
      | .error msg => .error msg
      | .ok data => .ok (displayPokemon data s)

/-- The message-classification code of the `catch` block, src/script.js
lines 233-239: a caught message containing "Pokémon not found" is shown
verbatim, one containing "Failed to fetch" is shown as a network error,
anything else as a generic error.  In the shipped script this code is
unreachable (see `catchFetchError`). -/
def classifyCaught (msg : String) (s : UIState) : UIState :=
  if jsIncludes msg "Pokémon not found" then
    showError msg s
  else if jsIncludes msg "Failed to fetch" then
    showError "Network error! Please check your internet connection." s
  else
    showError "Something went wrong! Please try again." s

/-- The `catch` block of `fetchPokemon`, src/script.js lines 229-240.
Its first statement (line 230) is the bare identifier `s`, which has no
binding anywhere in the script, so evaluating the block raises
`ReferenceError: s is not defined` before `console.error` or the
classification of lines 233-239 can run; the view state is left exactly
as it was when the `try` block threw. -/
def catchFetchError (_msg : String) (s : UIState) : UIState × Option JsException :=
  (s, some (JsException.referenceError "s"))

/-- `fetchPokemon` of src/script.js lines 210-241, run against a given
fetch outcome: `showLoading()` first, then the `try` block; a value
thrown there is handled by the `catch` block.  Returns the final view
state together with the exception escaping the call, if any (an
exception escaping the `async` function surfaces as an unhandled
promise rejection in the caller). -/
def fetchPokemon (o : FetchOutcome) (s : UIState) : UIState × Option JsException :=
  let s1 := showLoading s
  match tryFetch o s1 with
  | .ok s2 => (s2, none)
  | .error msg => catchFetchError msg s1

/-- The URL of the single `fetch` call in `fetchPokemon`
(src/script.js line 216). -/
def requestUrl (nameOrId : String) : String :=
  "https://pokeapi.co/api/v2/pokemon/" ++ jsToLowerCase nameOrId

/-- What a search submission does before any response arrives: either it
is rejected as empty (an error message is shown and no fetch is issued),
or `fetchPokemon` is entered with the trimmed input, issuing exactly one
GET to `requestUrl`. -/
inductive SearchAction where
  | rejectedEmpty
  | lookedUp (url : String)
deriving DecidableEq

/-- The shared logic of the click handler (src/script.js lines 243-252)
and the Enter-key handler (lines 254-265): trim the input; if the result
is empty show "Please enter a Pokémon name or ID!" and return without
fetching, otherwise call `fetchPokemon` with the trimmed input, whose
body contains exactly one `fetch`, to `requestUrl` of that input. -/
def searchSubmit (inputValue : String) : SearchAction :=
  let input := jsTrim inputValue
  if input = "" then .rejectedEmpty
  else .lookedUp (requestUrl input)

/-- The outbound requests a search action issues. -/
def requestsOf : SearchAction → List String
  | .rejectedEmpty => []
  | .lookedUp url => [url]

/-- The per-record projection rendered into the card: the DisplayModel
of the spec, read off the view state. -/
structure DisplayModel where
  name : String
  id : String
  images : List (String × String)
  height : String
  weight : String
  experience : String
  types : List (String × String)
deriving DecidableEq

/-- Read the DisplayModel off a view state. -/
def displayModelOf (s : UIState) : DisplayModel :=
  ⟨s.cardName, s.cardId, s.cardImages, s.cardHeight, s.cardWeight,
   s.cardExperience, s.cardTypes⟩

example : capitalize "pikachu" = "Pikachu" := by decide
example : capitalize "" = "" := by decide
example : convertHeight 4 = "0.40 m" := by decide
example : convertWeight 60 = "6.00 kg" := by decide
example : getTypeColor "electric" = "bg-yellow-400" := by decide
example : getTypeColor "sound" = "bg-gray-400" := by decide
example : padStart "25" 3 '0' = "025" := by decide
example : padStart "1200" 3 '0' = "1200" := by decide
example : jsTrim "   " = "" := by decide
example : jsTrim " Pikachu " = "Pikachu" := by decide
example : jsIncludes "HTTP Error: 500" "Failed to fetch" = false := by decide

/-- Does a fetch outcome make the `try` block of `fetchPokemon` throw?
True for a rejected fetch, a non-ok HTTP status, and a body that fails
to parse. -/
def fetchFails : FetchOutcome → Bool
  | .failed _ => true
  | .response status body =>
    !(respOk status) ||
      (match body with
       | .error _ => true
       | .ok _ => false)

/-! ## Helper lemmas -/

theorem strNilAppend (s : String) : String.mk [] ++ s = s := by
  cases s with
  | mk data => rfl

theorem mem_appendIf (x : String × String) (acc : List (String × String))
    (url : Option String) (label : String) :
    x ∈ appendIf acc url label ↔
      x ∈ acc ∨ ∃ u, url = some u ∧ u ≠ "" ∧ x = (u, label) := by
  cases url with
  | none => simp [appendIf]
  | some u =>
    by_cases hu : u = "" <;> simp [appendIf, hu]

theorem foldl_append_map {α β : Type} (f : α → β) (l : List α) :
    ∀ init : List β, l.foldl (fun acc x => acc ++ [f x]) init = init ++ l.map f := by
  induction l with
  | nil => intro init; simp
  | cons a l ih => intro init; simp [ih]

theorem buildTypes_eq_map (ts : List TypeInfo) :
    buildTypes ts = ts.map fun ti => (capitalize ti.type.name, getTypeColor ti.type.name) := by
  simpa [buildTypes] using foldl_append_map
    (fun ti : TypeInfo => (capitalize ti.type.name, getTypeColor ti.type.name)) ts []

theorem toDigitsCore_len_le (f : Nat) :
    ∀ (n : Nat) (l : List Char), l.length ≤ (Nat.toDigitsCore 10 f n l).length := by
  induction f with
  | zero => intro n l; simp [Nat.toDigitsCore]
  | succ f ih =>
    intro n l
    simp only [Nat.toDigitsCore]
    by_cases h0 : n / 10 = 0
    · simp [h0]
    · simp only [h0, if_false]
      calc l.length ≤ (Nat.digitChar (n % 10) :: l).length := by simp
        _ ≤ _ := ih _ _

theorem toDigitsCore_len_lower (f : Nat) :
    ∀ (k n : Nat) (l : List Char), n < f → 10 ^ k ≤ n →
      k + 1 + l.length ≤ (Nat.toDigitsCore 10 f n l).length := by
  induction f with
  | zero => intro k n l hf _; exact absurd hf (Nat.not_lt_zero n)
  | succ f ih =>
    intro k n l hf hk
    simp only [Nat.toDigitsCore]
    cases k with
    | zero =>
      by_cases h0 : n / 10 = 0
      · simp [h0]; omega
      · simp only [h0, if_false]
        have hle := toDigitsCore_len_le f (n / 10) (Nat.digitChar (n % 10) :: l)
        simp at hle
        omega
    | succ j =>
      have h10 : 10 ≤ n := by
        calc 10 = 10 ^ 1 := by norm_num
          _ ≤ 10 ^ (j + 1) := Nat.pow_le_pow_right (by norm_num) (by omega)
          _ ≤ n := hk
      have hpow : 10 ^ j ≤ n / 10 := by
        rw [Nat.le_div_iff_mul_le (by norm_num)]
        calc 10 ^ j * 10 = 10 ^ (j + 1) := (pow_succ 10 j).symm
          _ ≤ n := hk
      have h0 : ¬ (n / 10 = 0) := by
        have : 1 ≤ n / 10 := le_trans (Nat.one_le_pow j 10 (by norm_num)) hpow
        omega
      have hlt : n / 10 < f := by
        have := Nat.div_lt_self (by omega : 0 < n) (by norm_num : 1 < 10)
        omega
      simp only [h0, if_false]
      have := ih j (n / 10) (Nat.digitChar (n % 10) :: l) hlt hpow
      simp at this
      omega

theorem repr_len_lower (k n : Nat) (h : 10 ^ k ≤ n) : k + 1 ≤ (Nat.repr n).length := by
  have hlow := toDigitsCore_len_lower (n + 1) k n [] (Nat.lt_succ_self n) h
  simpa [Nat.repr, Nat.toDigits, String.length, List.asString] using hlow

/-! ## Claims -/

/-- Claim C1 (the code refutes it): the spec says every failure of a
lookup is converted to a classified kind inside the pipeline, no raw
exception escapes, and the UI stays interactive.  In the shipped script
the catch block's first statement is the unbound identifier `s`
(src/script.js line 230), so already an ordinary HTTP 404 makes a
ReferenceError escape `fetchPokemon`; no error view is shown and the
search button is left disabled. -/
theorem c1_failure_escapes_pipeline :
    (fetchPokemon (.response 404 (Except.error "")) initUI).2 =
      some (JsException.referenceError "s") ∧
    (fetchPokemon (.response 404 (Except.error "")) initUI).1.errorVisible = false ∧
    (fetchPokemon (.response 404 (Except.error "")) initUI).1.searchDisabled = true ∧
    (fetchPokemon (.response 404 (Except.error "")) initUI).1.loadingVisible = true :=
  ⟨rfl, rfl, rfl, rfl⟩

/-- Claim C2 (the code refutes it): the busy flag (disabled search
button / loading indicator) is set on initiation and cleared when a
successful lookup settles, but on a failure path (here a rejected fetch,
a transport failure) the catch block raises a ReferenceError before
`showError`/`hideLoading` can run, so the busy flag stays set. -/
theorem c2_busy_flag_not_cleared :
    (showLoading initUI).searchDisabled = true ∧
    (showLoading initUI).loadingVisible = true ∧
    (fetchPokemon (.response 200 (Except.ok
        ⟨"pikachu", 25, ⟨none, none, none, none⟩, 4, 60, 112, []⟩)) initUI).1.searchDisabled
      = false ∧
    (fetchPokemon (.failed "Failed to fetch") initUI).1.searchDisabled = true ∧
    (fetchPokemon (.failed "Failed to fetch") initUI).1.loadingVisible = true ∧
    (fetchPokemon (.failed "Failed to fetch") initUI).2 =
      some (JsException.referenceError "s") :=
  ⟨rfl, rfl, rfl, rfl, rfl, rfl⟩

/-- Claim C3 counterexample: the claim says an HTTP 500 yields an
HttpError classification carrying the status.  At that concrete input
the call instead lets a ReferenceError escape and shows no error view at
all. -/
theorem c3_counterexample_500 :
    (fetchPokemon (.response 500 (Except.error "")) initUI).2 =
      some (JsException.referenceError "s") ∧
    (fetchPokemon (.response 500 (Except.error "")) initUI).1.errorVisible = false :=
  ⟨rfl, rfl⟩

/-- Claim C3 (amended): in the shipped script every failing outcome
(transport failure, 404, other non-ok status, parse failure) makes the
catch block raise `ReferenceError: s is not defined`, leaving the view
in its loading state, so no classification is ever delivered; the
unreachable classification below the stray line would show the 404
message verbatim matched by substring, the network message for a
"Failed to fetch" transport error, and one identical generic message,
carrying no status, for both an HTTP 500 and a malformed body. -/
theorem c3_classification_amended :
    (∀ (o : FetchOutcome) (s : UIState), fetchFails o = true →
      fetchPokemon o s = (showLoading s, some (JsException.referenceError "s"))) ∧
    (∀ s : UIState,
      classifyCaught "HTTP Error: 500" s =
        showError "Something went wrong! Please try again." s ∧
      classifyCaught "SyntaxError: Unexpected token < in JSON at position 0" s =
        showError "Something went wrong! Please try again." s ∧
      classifyCaught "Pokémon not found! Please check the name or ID and try again." s =
        showError "Pokémon not found! Please check the name or ID and try again." s ∧
      classifyCaught "Failed to fetch" s =
        showError "Network error! Please check your internet connection." s) := by
  constructor
  · intro o s h
    cases o with
    | failed msg => rfl
    | response status body =>
      cases hr : respOk status with
      | false =>
        cases h4 : status == 404 <;>
          simp [fetchPokemon, tryFetch, hr, h4, catchFetchError]
      | true =>
        cases body with
        | error msg => simp [fetchPokemon, tryFetch, hr, catchFetchError]
        | ok d => simp [fetchFails, hr] at h
  · intro s
    have hA : jsIncludes "HTTP Error: 500" "Pokémon not found" = false := by decide
    have hB : jsIncludes "HTTP Error: 500" "Failed to fetch" = false := by decide
    have hC : jsIncludes "SyntaxError: Unexpected token < in JSON at position 0"
        "Pokémon not found" = false := by decide
    have hD : jsIncludes "SyntaxError: Unexpected token < in JSON at position 0"
        "Failed to fetch" = false := by decide
    have hE : jsIncludes "Pokémon not found! Please check the name or ID and try again."
        "Pokémon not found" = true := by decide
    have hF : jsIncludes "Failed to fetch" "Pokémon not found" = false := by decide
    have hG : jsIncludes "Failed to fetch" "Failed to fetch" = true := by decide
    exact ⟨by simp [classifyCaught, hA, hB], by simp [classifyCaught, hC, hD],
           by simp [classifyCaught, hE], by simp [classifyCaught, hF, hG]⟩

/-- Witness for the amended claim C3 at a concrete failing outcome. -/
theorem c3_classification_amended_witness :
    fetchPokemon (.failed "Failed to fetch") initUI =
      (showLoading initUI, some (JsException.referenceError "s")) :=
  c3_classification_amended.1 (.failed "Failed to fetch") initUI rfl

/-- Claim C4: an input whose trimmed value is empty is rejected with the
empty-query error and no request is issued; an input whose trimmed value
is non-empty issues exactly one GET, to the fixed endpoint parameterized
by the lower-cased trimmed input (`requestUrl` lower-cases its
argument). -/
theorem c4_empty_query_single_request :
    (∀ input : String, jsTrim input = "" →
      searchSubmit input = SearchAction.rejectedEmpty ∧
      requestsOf (searchSubmit input) = []) ∧
    (∀ input : String, jsTrim input ≠ "" →
      searchSubmit input = SearchAction.lookedUp (requestUrl (jsTrim input)) ∧
      requestsOf (searchSubmit input) = [requestUrl (jsTrim input)]) ∧
    searchSubmit "" = SearchAction.rejectedEmpty ∧
    searchSubmit "   " = SearchAction.rejectedEmpty := by
  refine ⟨fun input hin => ?_, fun input hin => ?_, by decide, by decide⟩
  · simp [searchSubmit, hin, requestsOf]
  · simp [searchSubmit, hin, requestsOf]

/-- Witness for claim C4 at concrete inputs on both branches. -/
theorem c4_empty_query_single_request_witness :
    (searchSubmit "   " = SearchAction.rejectedEmpty ∧
      requestsOf (searchSubmit "   ") = []) ∧
    (searchSubmit " Pikachu " = SearchAction.lookedUp (requestUrl (jsTrim " Pikachu ")) ∧
      requestsOf (searchSubmit " Pikachu ") = [requestUrl (jsTrim " Pikachu ")]) :=
  ⟨c4_empty_query_single_request.1 "   " (by decide),
   c4_empty_query_single_request.2.1 " Pikachu " (by decide)⟩

/-- Claim C5: an entry for a slot is in the image list exactly when that
slot's URL is present and non-empty, labeled with the slot's canonical
name; with all four present the list is in the canonical order; a
sprites object with only `front_default` yields exactly the one
front-default entry. -/
theorem c5_image_slots :
    (∀ (sp : Sprites) (u : String),
      ((u, "Front") ∈ buildImages sp ↔ sp.front_default = some u ∧ u ≠ "") ∧
      ((u, "Back") ∈ buildImages sp ↔ sp.back_default = some u ∧ u ≠ "") ∧
      ((u, "Shiny Front") ∈ buildImages sp ↔ sp.front_shiny = some u ∧ u ≠ "") ∧
      ((u, "Shiny Back") ∈ buildImages sp ↔ sp.back_shiny = some u ∧ u ≠ "")) ∧
    (∀ a b c d : String, a ≠ "" → b ≠ "" → c ≠ "" → d ≠ "" →
      buildImages ⟨some a, some b, some c, some d⟩ =
        [(a, "Front"), (b, "Back"), (c, "Shiny Front"), (d, "Shiny Back")]) ∧
    (∀ u : String, u ≠ "" →
      buildImages ⟨some u, none, none, none⟩ = [(u, "Front")]) := by
  refine ⟨fun sp u => ?_, fun a b c d ha hb hc hd => ?_, fun u hu => ?_⟩
  · obtain ⟨fd, bd, fs, bs⟩ := sp
    refine ⟨?_, ?_, ?_, ?_⟩ <;> simp [buildImages, mem_appendIf]
  · simp [buildImages, appendIf, ha, hb, hc, hd]
  · simp [buildImages, appendIf, hu]

/-- Witness for claim C5 at concrete sprites objects. -/
theorem c5_image_slots_witness :
    buildImages ⟨some "fd.png", some "bd.png", some "fs.png", some "bs.png"⟩ =
      [("fd.png", "Front"), ("bd.png", "Back"),
       ("fs.png", "Shiny Front"), ("bs.png", "Shiny Back")] ∧
    buildImages ⟨some "fd.png", none, none, none⟩ = [("fd.png", "Front")] :=
  ⟨c5_image_slots.2.1 "fd.png" "bd.png" "fs.png" "bs.png"
      (by decide) (by decide) (by decide) (by decide),
   c5_image_slots.2.2 "fd.png" (by decide)⟩

/-- Claim C6: the badge list maps each source entry, in order and
without deduplication, to its capitalized label paired with the color
from the fixed table keyed by the raw value, absent values getting the
default tag; `electric` yields the `Electric` badge with the tag the
table defines for `electric`. -/
theorem c6_category_badges :
    (∀ (ts : List TypeInfo) (i : Nat),
      (buildTypes ts)[i]? =
        (ts[i]?).map fun ti => (capitalize ti.type.name, getTypeColor ti.type.name)) ∧
    (∀ ts : List TypeInfo, (buildTypes ts).length = ts.length) ∧
    (∀ t : String, typeColors.lookup t = none → getTypeColor t = "bg-gray-400") ∧
    typeColors.lookup "electric" = some "bg-yellow-400" ∧
    buildTypes [⟨⟨"electric"⟩⟩] = [("Electric", "bg-yellow-400")] ∧
    buildTypes [⟨⟨"electric"⟩⟩, ⟨⟨"electric"⟩⟩] =
      [("Electric", "bg-yellow-400"), ("Electric", "bg-yellow-400")] := by
  refine ⟨fun ts i => ?_, fun ts => ?_, fun t h => ?_, by decide, by decide, by decide⟩
  · rw [buildTypes_eq_map]; simp [List.getElem?_map]
  · rw [buildTypes_eq_map]; simp
  · simp [getTypeColor, h]

/-- Witness for claim C6 at a value absent from the table. -/
theorem c6_category_badges_witness :
    typeColors.lookup "sound" = none ∧ getTypeColor "sound" = "bg-gray-400" :=
  ⟨by decide, c6_category_badges.2.2.1 "sound" (by decide)⟩

/-- Claim C7: heights and weights are rendered as the source value
divided by 10 with exactly two decimal places (the integer part, the
tenths digit, then a zero hundredths digit) suffixed with the unit;
`height = 4` gives "0.40 m" and `weight = 60` gives "6.00 kg". -/
theorem c7_unit_conversion :
    (∀ h : Nat, ∃ q r, h = 10 * q + r ∧ r < 10 ∧
      convertHeight h = Nat.repr q ++ "." ++ Nat.repr r ++ "0" ++ " m") ∧
    (∀ w : Nat, ∃ q r, w = 10 * q + r ∧ r < 10 ∧
      convertWeight w = Nat.repr q ++ "." ++ Nat.repr r ++ "0" ++ " kg") ∧
    convertHeight 4 = "0.40 m" ∧ convertWeight 60 = "6.00 kg" :=
  ⟨fun h => ⟨h / 10, h % 10, (Nat.div_add_mod h 10).symm,
     Nat.mod_lt h (by norm_num), rfl⟩,
   fun w => ⟨w / 10, w % 10, (Nat.div_add_mod w 10).symm,
     Nat.mod_lt w (by norm_num), rfl⟩,
   by decide, by decide⟩

/-- Claim C8: the card identifier is the decimal rendering of the id
left-padded with zeros (never truncated), so identifiers of 1000 or more
appear at their natural width; `id = 25` renders as "#025" and
`id = 1200` as "#1200". -/
theorem c8_identifier_format :
    (∀ (d : PokemonData) (s : UIState), 1000 ≤ d.id →
      (displayPokemon d s).cardId = "#" ++ Nat.repr d.id) ∧
    (∀ (d : PokemonData) (s : UIState), ∃ k,
      (displayPokemon d s).cardId =
        "#" ++ (String.mk (List.replicate k '0') ++ Nat.repr d.id)) ∧
    (displayPokemon ⟨"pikachu", 25, ⟨none, none, none, none⟩, 4, 60, 112, []⟩
      initUI).cardId = "#025" ∧
    (displayPokemon ⟨"pikachu", 1200, ⟨none, none, none, none⟩, 4, 60, 112, []⟩
      initUI).cardId = "#1200" := by
  refine ⟨fun d s h => ?_, fun d s => ?_, by decide, by decide⟩
  · have h4 : 4 ≤ (Nat.repr d.id).length := by
      refine repr_len_lower 3 d.id ?_
      norm_num
      exact h
    have hge : ¬ ((Nat.repr d.id).length < 3) := by omega
    simp [displayPokemon, padStart, hge]
  · by_cases hl : (Nat.repr d.id).length < 3
    · exact ⟨3 - (Nat.repr d.id).length, by simp [displayPokemon, padStart, hl]⟩
    · exact ⟨0, by simp [displayPokemon, padStart, hl, strNilAppend]⟩

/-- Witness for claim C8 at a concrete id of 1000 or more. -/
theorem c8_identifier_format_witness :
    (displayPokemon ⟨"x", 1200, ⟨none, none, none, none⟩, 4, 60, 112, []⟩
      initUI).cardId = "#" ++ Nat.repr 1200 :=
  c8_identifier_format.1 ⟨"x", 1200, ⟨none, none, none, none⟩, 4, 60, 112, []⟩
    initUI (by norm_num)

/-- Claim C9: the DisplayModel produced by a successful lookup is a
function of the fetched record alone — two calls that succeed with the
identical record render identical DisplayModels from any two prior view
states (every card field is overwritten; the image and badge containers
are cleared before being rebuilt), and no exception escapes the success
path. -/
theorem c9_projection_deterministic :
    ∀ (status : Nat) (d : PokemonData) (s1 s2 : UIState),
      respOk status = true →
      displayModelOf (fetchPokemon (.response status (Except.ok d)) s1).1 =
        displayModelOf (fetchPokemon (.response status (Except.ok d)) s2).1 ∧
      (fetchPokemon (.response status (Except.ok d)) s1).2 = none := by
  intro status d s1 s2 h
  constructor
  · simp [fetchPokemon, tryFetch, h, displayPokemon, displayModelOf,
      showLoading, hideLoading]
  · simp [fetchPokemon, tryFetch, h]

/-- Witness for claim C9: the same record fetched from two different
view states renders the same DisplayModel. -/
theorem c9_projection_deterministic_witness :
    displayModelOf (fetchPokemon (.response 200 (Except.ok
      ⟨"pikachu", 25, ⟨some "fd.png", none, none, none⟩, 4, 60, 112,
        [⟨⟨"electric"⟩⟩]⟩)) initUI).1 =
    displayModelOf (fetchPokemon (.response 200 (Except.ok
      ⟨"pikachu", 25, ⟨some "fd.png", none, none, none⟩, 4, 60, 112,
        [⟨⟨"electric"⟩⟩]⟩)) (showLoading initUI)).1 :=
  (c9_projection_deterministic 200
    ⟨"pikachu", 25, ⟨some "fd.png", none, none, none⟩, 4, 60, 112,
      [⟨⟨"electric"⟩⟩]⟩ initUI (showLoading initUI) rfl).1

/-- Claim C10: `capitalize` is total on every string, in particular the
empty one, where it returns the empty string; a record whose name or
category label is empty renders as an empty display string. -/
theorem c10_capitalize_total :
    capitalize "" = "" ∧
    (∀ (idv : Nat) (sp : Sprites) (h w e : Nat) (ts : List TypeInfo) (s : UIState),
      (displayPokemon ⟨"", idv, sp, h, w, e, ts⟩ s).cardName = "") ∧
    buildTypes [⟨⟨""⟩⟩] = [("", "bg-gray-400")] :=
  ⟨rfl, fun idv sp h w e ts s => rfl, by decide⟩
